import Mathlib

/-!
Shallow embedding of the taxonomy classification and attribute-resolution
engine of `ProductTaxonomyClassifier` (taxonomy.py).

Modelling conventions:
* Python strings are modelled as `List Char` (`Str`); the relevant string
  operations (`strip`, `lower`, `replace`, `split`, substring containment)
  are defined explicitly below with Python's semantics.
* The Model Gateway (`_make_api_call`'s underlying Anthropic client) is a
  function from the call index to either a failure message or a response
  text; a call counter is threaded through every operation so that the
  number of generation calls issued is observable.
* Python's `json.loads` is a parameter `jl : Str → Option PyVal`; `none`
  models a raised `json.JSONDecodeError`, `some v` a parsed Python value.
* A raised Python exception is modelled as `Except.error` carrying an
  `Err`; the constructors record which error kind of the specification the
  concrete Python exception corresponds to (`notFoundError` for the
  `ValueError`s raised at taxonomy lookups, `gatewayError` for the
  `Exception("API call failed: ...")` raised by `_make_api_call`,
  `classificationError` for the `Exception("Classification failed: ...")`
  raised by the orchestrator, `typeError` for Python `TypeError`).
-/

abbrev Str := List Char

/-- Python `str.lower` (ASCII model). -/
def lowerStr (s : Str) : Str := s.map Char.toLower

/-- Python `str.strip`: remove leading and trailing whitespace. -/
def stripStr (s : Str) : Str :=
  ((s.dropWhile Char.isWhitespace).reverse.dropWhile Char.isWhitespace).reverse

/-- Does `p` occur as a prefix of `s`? (Python `str.startswith`.) -/
def startsWithStr : Str → Str → Bool
  | [], _ => true
  | _ :: _, [] => false
  | a :: as, b :: bs => a == b && startsWithStr as bs

/-- Does `p` occur as a suffix of `s`? (Python `str.endswith`.) -/
def endsWithStr (p s : Str) : Bool := startsWithStr p.reverse s.reverse

/-- Python `needle in hay` on strings: contiguous substring containment. -/
def containsStr (needle : Str) : Str → Bool
  | [] => startsWithStr needle []
  | b :: bs => startsWithStr needle (b :: bs) || containsStr needle bs

/-- Fuelled worker for `replaceAll`; the fuel is an upper bound on the
length of the remaining string, so the `0` case is never reached when the
fuel starts at the string's length. -/
def replaceAllFuel (pat rep : Str) : Nat → Str → Str
  | _, [] => []
  | 0, s => s
  | fuel + 1, c :: rest =>
    if !pat.isEmpty && startsWithStr pat (c :: rest) then
      rep ++ replaceAllFuel pat rep fuel ((c :: rest).drop pat.length)
    else
      c :: replaceAllFuel pat rep fuel rest

/-- Python `str.replace(pat, rep)`: left-to-right, non-overlapping
replacement of every occurrence. -/
def replaceAll (pat rep s : Str) : Str := replaceAllFuel pat rep s.length s

/-- Python `str.split(sep)` for a single-character separator. -/
def splitOnChar (sep : Char) : Str → List Str
  | [] => [[]]
  | c :: rest =>
    match splitOnChar sep rest with
    | [] => if c == sep then [[], []] else [[c]]
    | h :: t => if c == sep then [] :: h :: t else (c :: h) :: t

/-- First-occurrence de-duplication with an accumulator of already seen
elements; `uniqueSeen []` models pandas `Series.unique()` and
`DataFrame.drop_duplicates()`, both of which keep the first occurrence in
order. -/
def uniqueSeen [DecidableEq α] (seen : List α) : List α → List α
  | [] => []
  | x :: xs =>
    if x ∈ seen then uniqueSeen seen xs
    else x :: uniqueSeen (seen ++ [x]) xs

/-- A Python value as produced by `json.loads` (and manipulated by
`get_attributes`). -/
inductive PyVal where
  | str (s : Str)
  | int (n : Int)
  | bool (b : Bool)
  | list (xs : List PyVal)
  | dict (entries : List (Str × PyVal))
  | none
deriving Inhabited

/-- Python dict assignment `d[k] = v`: overwrite in place if the key is
present, append otherwise (insertion order of keys is preserved). -/
def dictInsert (es : List (Str × β)) (k : Str) (v : β) : List (Str × β) :=
  if k ∈ es.map Prod.fst then
    es.map (fun e => if e.1 = k then (k, v) else e)
  else
    es ++ [(k, v)]

/-- Python dict lookup `d[k]` as an option (first entry with the key). -/
def dictLookup (es : List (Str × β)) (k : Str) : Option β :=
  match es.find? (fun e => e.1 = k) with
  | some e => some e.2
  | Option.none => Option.none

/-- The error kinds of the specification, each carrying the Python
exception message. `typeError` models a Python `TypeError`, which is not
one of the four named kinds. -/
inductive Err where
  | loadError (msg : Str)
  | notFoundError (msg : Str)
  | gatewayError (msg : Str)
  | classificationError (msg : Str)
  | typeError (msg : Str)
deriving DecidableEq

/-- Python `str(e)`: the message of the exception. -/
def errMsg : Err → Str
  | .loadError m => m
  | .notFoundError m => m
  | .gatewayError m => m
  | .classificationError m => m
  | .typeError m => m

/-- Is the error one of the four named error kinds of the specification
(LoadError, NotFoundError, GatewayError, ClassificationError)? -/
def isNamedErr : Err → Bool
  | .typeError _ => false
  | _ => true

/-- Python `key in container` for the containers `get_attributes` can
receive from `json.loads`: key membership for a dict, elementwise equality
for a list, substring containment for a string, and a `TypeError` for the
non-iterable values. -/
def pyContains (container : PyVal) (key : Str) : Except Err Bool :=
  match container with
  | .dict es => .ok (decide (key ∈ es.map Prod.fst))
  | .list xs =>
    .ok (xs.any (fun x => match x with | .str s => s == key | _ => false))
  | .str s => .ok (containsStr key s)
  | .int _ => .error (.typeError "argument of type int is not iterable".data)
  | .bool _ => .error (.typeError "argument of type bool is not iterable".data)
  | .none => .error (.typeError "argument of type NoneType is not iterable".data)

/-- Python `container[key] = v` for the values `get_attributes` can
receive: assignment succeeds only on a dict, every other shape raises a
`TypeError`. -/
def pySetItem (container : PyVal) (key : Str) (v : PyVal) : Except Err PyVal :=
  match container with
  | .dict es => .ok (.dict (dictInsert es key v))
  | .list _ => .error (.typeError "list indices must be integers, not str".data)
  | .str _ => .error (.typeError "str object does not support item assignment".data)
  | .int _ => .error (.typeError "int object does not support item assignment".data)
  | .bool _ => .error (.typeError "bool object does not support item assignment".data)
  | .none => .error (.typeError "NoneType object does not support item assignment".data)

/-- One row of the loaded taxonomy table (`taxonomy_df` after
`_load_and_clean_taxonomy`: every field already coerced to a string).
The `attribute` column is named `attr` because `attribute` is a Lean
keyword. -/
structure TaxonomyRow where
  level1 : Str
  level2 : Str
  level3 : Str
  attr : Str
  validValues : Str
deriving DecidableEq

/-- The Model Gateway: response of the n-th generation call, either a
transport failure message or the returned text. -/
abbrev Gateway := Nat → Except Str Str

/-- Embedding of `_make_api_call`: forwards to the gateway, strips the
returned text, and wraps any client failure as
`Exception("API call failed: ...")` (the specification's GatewayError).
Returns the response together with the incremented call counter. -/
def make_api_call (gw : Gateway) (n : Nat) : Except Err (Str × Nat) :=
  match gw n with
  | .error e => .error (.gatewayError ("API call failed: ".data ++ e))
  | .ok t => .ok (stripStr t, n + 1)

/-- The distinct level-3 options offered to the model in
`get_level_3_taxonomy`: first-seen distinct values of the `level 3
category` column, with blank values removed. -/
def level3Options (table : List TaxonomyRow) : List Str :=
  (uniqueSeen [] (table.map (fun r => r.level3))).filter
    (fun c => !(stripStr c).isEmpty)

/-- Embedding of `_find_closest_match`; the Python local `response_lower =
response.lower().strip()` is inlined as `stripStr (lowerStr response)`. -/
def find_closest_match (response : Str) (valid_options : List Str) : Str :=
  match valid_options.find? (fun o => lowerStr o == stripStr (lowerStr response)) with
  | some o => o
  | Option.none =>
    match valid_options.find? (fun o =>
        containsStr (stripStr (lowerStr response)) (lowerStr o) ||
        containsStr (lowerStr o) (stripStr (lowerStr response))) with
    | some o => o
    | Option.none =>
      match valid_options with
      | [] => response
      | o :: _ => o

/-- Embedding of `get_level_3_taxonomy`: one generation call; if the
stripped response is not one of the options, fall back to
`_find_closest_match`. The prompt text does not influence the result and
is therefore not materialised; the gateway is quantified over instead. -/
def get_level_3_taxonomy (table : List TaxonomyRow) (gw : Gateway)
    (product_description : Str) (n : Nat) : Except Err (Str × Nat) :=
  let level_3_options := level3Options table
  match make_api_call gw n with
  | .error e => .error e
  | .ok (selected_category, n') =>
    if selected_category ∈ level_3_options then
      .ok (selected_category, n')
    else
      .ok (find_closest_match selected_category level_3_options, n')

/-- Embedding of `get_parent_categories`: first row with the matching
level-3 value, `ValueError` (the specification's NotFoundError) when there
is none. -/
def get_parent_categories (table : List TaxonomyRow) (level_3_category : Str) :
    Except Err (Str × Str) :=
  match table.filter (fun r => r.level3 == level_3_category) with
  | [] => .error (.notFoundError
      ("No matching row found for level 3 category: ".data ++ level_3_category))
  | r :: _ => .ok (r.level1, r.level2)

/-- Embedding of the per-row valid-value parsing inside `get_attributes`:
a string that looks like a JSON array is parsed with `json.loads` (a parse
failure is caught by the bare `except` and yields the whole string as a
single value); otherwise the string is split on semicolons and each piece
stripped. When `json.loads` yields a list with a non-string element the
subsequent `', '.join(...)` (which sits outside the `try`) raises a
`TypeError`; Python's `json.loads` cannot return a non-list for a
`[`...`]` input, so that branch is likewise mapped to the `TypeError` of
the `join`. -/
def parseValidValues (jl : Str → Option PyVal) (valid_values : Str) :
    Except Err (List Str) :=
  if startsWithStr "[".data valid_values && endsWithStr "]".data valid_values then
    match jl valid_values with
    | Option.none => .ok [valid_values]
    | some (.list xs) =>
      if xs.all (fun x => match x with | .str _ => true | _ => false) then
        .ok (xs.map (fun x => match x with | .str s => s | _ => []))
      else
        .error (.typeError "sequence item: expected str instance".data)
    | some _ => .error (.typeError "can only join an iterable of str".data)
  else
    .ok ((splitOnChar ';' valid_values).map stripStr)

/-- The loop in `get_attributes` that builds the `attribute_options`
dictionary from the de-duplicated (attribute, valid values) pairs. -/
def buildLoop (jl : Str → Option PyVal) :
    List (Str × Str) → List (Str × List Str) →
    Except Err (List (Str × List Str))
  | [], acc => .ok acc
  | (a, vv) :: rest, acc =>
    match parseValidValues jl vv with
    | .error e => .error e
    | .ok lst => buildLoop jl rest (dictInsert acc a lst)

/-- Embedding of the first half of `get_attributes`: select the rows of
the level-3 category, project and de-duplicate the (attribute, valid
values) pairs, raise `ValueError` (the specification's NotFoundError) when
there are none, and build the `attribute_options` dictionary. -/
def buildAttributeOptions (table : List TaxonomyRow) (jl : Str → Option PyVal)
    (level_3_taxonomy : Str) : Except Err (List (Str × List Str)) :=
  let rows := table.filter (fun r => r.level3 == level_3_taxonomy)
  let pairs := uniqueSeen [] (rows.map (fun r => (r.attr, r.validValues)))
  match pairs with
  | [] => .error (.notFoundError
      ("No attributes found for level 3: ".data ++ level_3_taxonomy))
  | _ :: _ => buildLoop jl pairs []

/-- Embedding of the response cleaning in `get_attributes` (lines
212-216): strip, then remove Markdown code-fence markers when the response
starts with one, stripping again afterwards. -/
def stripFences (s : Str) : Str :=
  let response := stripStr s
  if startsWithStr "```json".data response then
    stripStr (replaceAll "```".data [] (replaceAll "```json".data [] response))
  else if startsWithStr "```".data response then
    stripStr (replaceAll "```".data [] response)
  else response

/-- Embedding of the completeness loop in `get_attributes` (lines
221-223): for every expected attribute name, insert "N/A" when the parsed
value does not contain it. On a non-dict parsed value the membership test
or the assignment can raise a `TypeError`. -/
def fillLoop : List Str → PyVal → Except Err PyVal
  | [], selected => .ok selected
  | a :: rest, selected =>
    match pyContains selected a with
    | .error e => .error e
    | .ok true => fillLoop rest selected
    | .ok false =>
      match pySetItem selected a (.str "N/A".data) with
      | .error e => .error e
      | .ok selected' => fillLoop rest selected'

/-- Embedding of `get_attributes`: build the attribute options, issue one
generation call, clean and JSON-parse the response; on a parse failure
return "N/A" for every attribute, otherwise run the completeness loop over
the expected attribute names. -/
def get_attributes (table : List TaxonomyRow) (gw : Gateway)
    (jl : Str → Option PyVal) (level_3_taxonomy product_description : Str)
    (n : Nat) : Except Err (PyVal × Nat) :=
  match buildAttributeOptions table jl level_3_taxonomy with
  | .error e => .error e
  | .ok attribute_options =>
    match make_api_call gw n with
    | .error e => .error e
    | .ok (resp, n') =>
      let response := stripFences resp
      match jl response with
      | Option.none =>
        .ok (.dict (attribute_options.map (fun e => (e.1, PyVal.str "N/A".data))), n')
      | some selected =>
        match fillLoop (attribute_options.map Prod.fst) selected with
        | .error e => .error e
        | .ok selected' => .ok (selected', n')

/-- The dictionary returned by `classify_product`. -/
structure ClassificationResult where
  product_description : Str
  level_1_category : Str
  level_2_category : Str
  level_3_category : Str
  attributes : PyVal

/-- The dictionary returned by `classify_product_categories_only`. -/
structure CategoriesResult where
  product_description : Str
  level_1_category : Str
  level_2_category : Str
  level_3_category : Str
deriving DecidableEq

/-- The body of the `try` block of `classify_product`. -/
def classify_product_inner (table : List TaxonomyRow) (gw : Gateway)
    (jl : Str → Option PyVal) (product_description : Str) (n : Nat) :
    Except Err (ClassificationResult × Nat) :=
  match get_level_3_taxonomy table gw product_description n with
  | .error e => .error e
  | .ok (level_3, n1) =>
    match get_parent_categories table level_3 with
    | .error e => .error e
    | .ok (level_1, level_2) =>
      match get_attributes table gw jl level_3 product_description n1 with
      | .error e => .error e
      | .ok (attributes, n2) =>
        .ok ({ product_description := product_description
               level_1_category := level_1
               level_2_category := level_2
               level_3_category := level_3
               attributes := attributes }, n2)

/-- Embedding of `classify_product`: the `except Exception` clause wraps
every error of the body as `Exception("Classification failed: ...")` (the
specification's ClassificationError). -/
def classify_product (table : List TaxonomyRow) (gw : Gateway)
    (jl : Str → Option PyVal) (product_description : Str) (n : Nat) :
    Except Err (ClassificationResult × Nat) :=
  match classify_product_inner table gw jl product_description n with
  | .ok r => .ok r
  | .error e =>
    .error (.classificationError ("Classification failed: ".data ++ errMsg e))

/-- The body of the `try` block of `classify_product_categories_only`. -/
def classify_categories_inner (table : List TaxonomyRow) (gw : Gateway)
    (product_description : Str) (n : Nat) :
    Except Err (CategoriesResult × Nat) :=
  match get_level_3_taxonomy table gw product_description n with
  | .error e => .error e
  | .ok (level_3, n1) =>
    match get_parent_categories table level_3 with
    | .error e => .error e
    | .ok (level_1, level_2) =>
      .ok ({ product_description := product_description
             level_1_category := level_1
             level_2_category := level_2
             level_3_category := level_3 }, n1)

/-- Embedding of `classify_product_categories_only`, with the same
wrapping `except Exception` clause as `classify_product`. -/
def classify_product_categories_only (table : List TaxonomyRow) (gw : Gateway)
    (product_description : Str) (n : Nat) :
    Except Err (CategoriesResult × Nat) :=
  match classify_categories_inner table gw product_description n with
  | .ok r => .ok r
  | .error e =>
    .error (.classificationError ("Classification failed: ".data ++ errMsg e))

/-- The attribute names of the AttributeSpec of a level-3 category, as a
membership predicate: the attribute column values of the rows of that
category. -/
abbrev isExpectedAttr (table : List TaxonomyRow) (l3 a : Str) : Prop :=
  a ∈ (table.filter (fun r => r.level3 == l3)).map (fun r => r.attr)

/-! Helper lemmas about the embedded operations. -/

theorem find?_append_some {p : α → Bool} {l1 l2 : List α} {x : α}
    (h : l1.find? p = some x) : (l1 ++ l2).find? p = some x := by
  induction l1 with
  | nil => simp [List.find?] at h
  | cons a t ih =>
    cases hp : p a with
    | true => simp_all [List.find?_cons, hp]
    | false =>
      rw [List.cons_append]
      simp only [List.find?_cons, hp, if_neg] at h ⊢
      exact ih h

theorem map_replace_fst (es : List (Str × β)) (k : Str) (v : β) :
    (es.map (fun e => if e.1 = k then (k, v) else e)).map Prod.fst =
      es.map Prod.fst := by
  induction es with
  | nil => rfl
  | cons e t ih =>
    by_cases he : e.1 = k
    · simp [he, ih]
    · simp [he, ih]

theorem dictInsert_fst_mem (es : List (Str × β)) (k a : Str) (v : β) :
    a ∈ (dictInsert es k v).map Prod.fst ↔ (a ∈ es.map Prod.fst ∨ a = k) := by
  unfold dictInsert
  by_cases hk : k ∈ es.map Prod.fst
  · rw [if_pos hk, map_replace_fst]
    constructor
    · exact Or.inl
    · rintro (h | rfl)
      · exact h
      · exact hk
  · rw [if_neg hk]
    simp only [List.map_append, List.mem_append, List.map_cons, List.map_nil,
      List.mem_singleton]

theorem dictInsert_not_mem (es : List (Str × β)) (k : Str) (v : β)
    (hk : k ∉ es.map Prod.fst) : dictInsert es k v = es ++ [(k, v)] := by
  unfold dictInsert
  rw [if_neg hk]

theorem dictLookup_append_some (es es' : List (Str × β)) (a : Str) (v : β)
    (h : dictLookup es a = some v) : dictLookup (es ++ es') a = some v := by
  unfold dictLookup at h ⊢
  cases hf : es.find? (fun e => e.1 = a) with
  | none => rw [hf] at h; exact absurd h (by simp)
  | some e => rw [hf] at h; rw [find?_append_some hf]; exact h

theorem uniqueSeen_mem [DecidableEq α] (l : List α) :
    ∀ (seen : List α) (a : α), a ∈ uniqueSeen seen l ↔ (a ∈ l ∧ a ∉ seen) := by
  induction l with
  | nil => intro seen a; simp [uniqueSeen]
  | cons x xs ih =>
    intro seen a
    unfold uniqueSeen
    by_cases hx : x ∈ seen
    · rw [if_pos hx, ih]
      constructor
      · rintro ⟨h1, h2⟩; exact ⟨List.mem_cons_of_mem _ h1, h2⟩
      · rintro ⟨h1, h2⟩
        rcases List.mem_cons.mp h1 with rfl | h1
        · exact absurd hx h2
        · exact ⟨h1, h2⟩
    · rw [if_neg hx]
      constructor
      · intro h
        rcases List.mem_cons.mp h with rfl | h
        · exact ⟨List.mem_cons_self _ _, hx⟩
        · rcases (ih _ _).mp h with ⟨h1, h2⟩
          refine ⟨List.mem_cons_of_mem _ h1, fun hs => h2 ?_⟩
          simp [hs]
      · rintro ⟨h1, h2⟩
        rcases List.mem_cons.mp h1 with rfl | h1
        · exact List.mem_cons_self _ _
        · by_cases hax : a = x
          · subst hax; exact List.mem_cons_self _ _
          · refine List.mem_cons_of_mem _ ((ih _ _).mpr ⟨h1, fun hs => ?_⟩)
            rcases List.mem_append.mp hs with hs | hs
            · exact h2 hs
            · simp at hs; exact hax hs

theorem find_closest_match_mem (response : Str) (valid_options : List Str)
    (h : valid_options ≠ []) :
    find_closest_match response valid_options ∈ valid_options := by
  unfold find_closest_match
  split
  · next o h1 => exact List.mem_of_find?_eq_some h1
  · split
    · next o h2 => exact List.mem_of_find?_eq_some h2
    · split
      · exact absurd rfl h
      · exact List.mem_cons_self _ _

theorem get_parent_categories_ok_mem (table : List TaxonomyRow) (v : Str)
    (p : Str × Str) (h : get_parent_categories table v = .ok p) :
    v ∈ table.map (fun r => r.level3) := by
  unfold get_parent_categories at h
  cases hf : table.filter (fun r => r.level3 == v) with
  | nil => rw [hf] at h; exact absurd h (by simp)
  | cons r t =>
    have hr : r ∈ table.filter (fun r => r.level3 == v) := by
      rw [hf]; exact List.mem_cons_self _ _
    rcases List.mem_filter.mp hr with ⟨hmem, hlev⟩
    have : r.level3 = v := by simpa using hlev
    exact this ▸ List.mem_map_of_mem _ hmem

theorem get_level_3_taxonomy_count (table : List TaxonomyRow) (gw : Gateway)
    (d : Str) (n : Nat) (c : Str) (n' : Nat)
    (h : get_level_3_taxonomy table gw d n = .ok (c, n')) : n' = n + 1 := by
  unfold get_level_3_taxonomy make_api_call at h
  cases hg : gw n with
  | error e => rw [hg] at h; exact absurd h (by simp)
  | ok t =>
    rw [hg] at h
    simp only at h
    split at h <;>
      (simp only [Except.ok.injEq, Prod.mk.injEq] at h; exact h.2.symm)

theorem fillLoop_dict (keys : List Str) :
    ∀ es : List (Str × PyVal), ∃ es',
      fillLoop keys (.dict es) = .ok (.dict es') ∧
      (∀ a, a ∈ es.map Prod.fst → a ∈ es'.map Prod.fst) ∧
      (∀ a, a ∈ keys → a ∈ es'.map Prod.fst) ∧
      (∀ a v, dictLookup es a = some v → dictLookup es' a = some v) := by
  induction keys with
  | nil =>
    intro es
    exact ⟨es, rfl, fun a h => h, by simp, fun a v h => h⟩
  | cons k rest ih =>
    intro es
    by_cases hk : k ∈ es.map Prod.fst
    · obtain ⟨es', h1, h2, h3, h4⟩ := ih es
      refine ⟨es', ?_, h2, ?_, h4⟩
      · simp only [fillLoop, pyContains, decide_eq_true hk]
        exact h1
      · intro a ha
        rcases List.mem_cons.mp ha with rfl | ha
        · exact h2 _ hk
        · exact h3 _ ha
    · obtain ⟨es', h1, h2, h3, h4⟩ := ih (es ++ [(k, PyVal.str "N/A".data)])
      refine ⟨es', ?_, ?_, ?_, ?_⟩
      · simp only [fillLoop, pyContains, decide_eq_false hk, pySetItem,
          dictInsert_not_mem es k _ hk]
        exact h1
      · intro a ha
        exact h2 a (by simp [ha])
      · intro a ha
        rcases List.mem_cons.mp ha with rfl | ha
        · exact h2 a (by simp)
        · exact h3 a ha
      · intro a v hv
        exact h4 a v (dictLookup_append_some _ _ _ _ hv)

theorem fillLoop_str (keys : List Str) :
    ∀ s v, fillLoop keys (.str s) = .ok v → v = .str s := by
  induction keys with
  | nil => intro s v h; injection h with h'; exact h'.symm
  | cons k rest ih =>
    intro s v h
    simp only [fillLoop, pyContains] at h
    cases hc : containsStr k s with
    | true => rw [hc] at h; exact ih s v h
    | false => rw [hc] at h; simp [pySetItem] at h

theorem fillLoop_list (keys : List Str) :
    ∀ xs v, fillLoop keys (.list xs) = .ok v → v = .list xs := by
  induction keys with
  | nil => intro xs v h; injection h with h'; exact h'.symm
  | cons k rest ih =>
    intro xs v h
    simp only [fillLoop, pyContains] at h
    cases hc : xs.any (fun x => match x with | .str s => s == k | _ => false) with
    | true => rw [hc] at h; exact ih xs v h
    | false => rw [hc] at h; simp [pySetItem] at h

theorem fillLoop_int (keys : List Str) (i : Int) (v : PyVal)
    (h : fillLoop keys (.int i) = .ok v) : v = .int i := by
  cases keys with
  | nil => injection h with h'; exact h'.symm
  | cons k rest => simp [fillLoop, pyContains] at h

theorem fillLoop_bool (keys : List Str) (b : Bool) (v : PyVal)
    (h : fillLoop keys (.bool b) = .ok v) : v = .bool b := by
  cases keys with
  | nil => injection h with h'; exact h'.symm
  | cons k rest => simp [fillLoop, pyContains] at h

theorem fillLoop_pynone (keys : List Str) (v : PyVal)
    (h : fillLoop keys PyVal.none = .ok v) : v = PyVal.none := by
  cases keys with
  | nil => injection h with h'; exact h'.symm
  | cons k rest => simp [fillLoop, pyContains] at h

theorem fillLoop_ok_dict (keys : List Str) (sel : PyVal)
    (es' : List (Str × PyVal))
    (h : fillLoop keys sel = .ok (.dict es')) :
    ∀ a, a ∈ keys → a ∈ es'.map Prod.fst := by
  cases sel with
  | dict es =>
    obtain ⟨es'', h1, _, h3, _⟩ := fillLoop_dict keys es
    rw [h1] at h
    injection h with h'
    injection h' with h''
    exact h'' ▸ h3
  | str s => exact absurd (fillLoop_str keys s _ h) (by simp)
  | list xs => exact absurd (fillLoop_list keys xs _ h) (by simp)
  | int i => exact absurd (fillLoop_int keys i _ h) (by simp)
  | bool b => exact absurd (fillLoop_bool keys b _ h) (by simp)
  | none => exact absurd (fillLoop_pynone keys _ h) (by simp)

theorem buildLoop_keys (jl : Str → Option PyVal) (ps : List (Str × Str)) :
    ∀ acc opts, buildLoop jl ps acc = .ok opts →
      ∀ a, a ∈ opts.map Prod.fst ↔
        (a ∈ acc.map Prod.fst ∨ a ∈ ps.map Prod.fst) := by
  induction ps with
  | nil =>
    intro acc opts h a
    injection h with h'
    simp [h'.symm]
  | cons p rest ih =>
    intro acc opts h a
    obtain ⟨pa, pvv⟩ := p
    simp only [buildLoop] at h
    cases hp : parseValidValues jl pvv with
    | error e => rw [hp] at h; exact absurd h (by simp)
    | ok lst =>
      rw [hp] at h
      rw [ih _ _ h a, dictInsert_fst_mem]
      simp only [List.map_cons, List.mem_cons]
      constructor
      · rintro ((h1 | rfl) | h1)
        · exact Or.inl h1
        · exact Or.inr (Or.inl rfl)
        · exact Or.inr (Or.inr h1)
      · rintro (h1 | (rfl | h1))
        · exact Or.inl (Or.inl h1)
        · exact Or.inl (Or.inr rfl)
        · exact Or.inr h1

theorem buildAttributeOptions_keys (table : List TaxonomyRow)
    (jl : Str → Option PyVal) (l3 : Str) (opts : List (Str × List Str))
    (h : buildAttributeOptions table jl l3 = .ok opts) :
    ∀ a, a ∈ opts.map Prod.fst ↔ isExpectedAttr table l3 a := by
  intro a
  simp only [buildAttributeOptions] at h
  cases hp : uniqueSeen []
      ((table.filter (fun r => r.level3 == l3)).map
        (fun r => (r.attr, r.validValues))) with
  | nil => rw [hp] at h; exact absurd h (by simp)
  | cons q qs =>
    rw [hp] at h
    rw [buildLoop_keys jl _ _ _ h a]
    simp only [List.map_nil, List.mem_nil_iff, false_or]
    rw [← hp]
    constructor
    · intro hm
      rcases List.mem_map.mp hm with ⟨pq, hpq, rfl⟩
      rcases (uniqueSeen_mem _ _ _).mp hpq with ⟨h1, _⟩
      rcases List.mem_map.mp h1 with ⟨r, hr, rfl⟩
      exact List.mem_map_of_mem _ hr
    · intro hm
      rcases List.mem_map.mp hm with ⟨r, hr, rfl⟩
      refine List.mem_map.mpr ⟨(r.attr, r.validValues), ?_, rfl⟩
      exact (uniqueSeen_mem _ _ _).mpr ⟨List.mem_map_of_mem _ hr, by simp⟩

theorem get_attributes_count (table : List TaxonomyRow) (gw : Gateway)
    (jl : Str → Option PyVal) (l3 d : Str) (n : Nat) (v : PyVal) (n' : Nat)
    (h : get_attributes table gw jl l3 d n = .ok (v, n')) : n' = n + 1 := by
  unfold get_attributes at h
  cases hb : buildAttributeOptions table jl l3 with
  | error e => rw [hb] at h; exact absurd h (by simp)
  | ok opts =>
    rw [hb] at h
    unfold make_api_call at h
    cases hg : gw n with
    | error e => rw [hg] at h; exact absurd h (by simp)
    | ok t =>
      rw [hg] at h
      simp only at h
      cases hj : jl (stripFences (stripStr t)) with
      | none =>
        rw [hj] at h
        simp only [Except.ok.injEq, Prod.mk.injEq] at h
        exact h.2.symm
      | some sel =>
        simp only [hj] at h
        cases hf : fillLoop (opts.map Prod.fst) sel with
        | error e => rw [hf] at h; exact absurd h (by simp)
        | ok sel' =>
          rw [hf] at h
          simp only [Except.ok.injEq, Prod.mk.injEq] at h
          exact h.2.symm

theorem classify_product_ok_inner (table : List TaxonomyRow) (gw : Gateway)
    (jl : Str → Option PyVal) (desc : Str) (n : Nat)
    (x : ClassificationResult × Nat)
    (h : classify_product table gw jl desc n = .ok x) :
    classify_product_inner table gw jl desc n = .ok x := by
  unfold classify_product at h
  cases hi : classify_product_inner table gw jl desc n with
  | error e => rw [hi] at h; exact absurd h (by simp)
  | ok y => rw [hi] at h; injection h with h'; rw [h']

theorem classify_categories_ok_inner (table : List TaxonomyRow) (gw : Gateway)
    (desc : Str) (n : Nat) (x : CategoriesResult × Nat)
    (h : classify_product_categories_only table gw desc n = .ok x) :
    classify_categories_inner table gw desc n = .ok x := by
  unfold classify_product_categories_only at h
  cases hi : classify_categories_inner table gw desc n with
  | error e => rw [hi] at h; exact absurd h (by simp)
  | ok y => rw [hi] at h; injection h with h'; rw [h']

theorem classify_product_inner_spec (table : List TaxonomyRow) (gw : Gateway)
    (jl : Str → Option PyVal) (desc : Str) (n : Nat)
    (r : ClassificationResult) (n2 : Nat)
    (h : classify_product_inner table gw jl desc n = .ok (r, n2)) :
    n2 = n + 2 ∧
    get_parent_categories table r.level_3_category =
      .ok (r.level_1_category, r.level_2_category) ∧
    get_attributes table gw jl r.level_3_category desc (n + 1) =
      .ok (r.attributes, n2) := by
  unfold classify_product_inner at h
  cases h3 : get_level_3_taxonomy table gw desc n with
  | error e => rw [h3] at h; exact absurd h (by simp)
  | ok p1 =>
    obtain ⟨l3, n1⟩ := p1
    simp only [h3] at h
    cases hp : get_parent_categories table l3 with
    | error e => simp only [hp] at h; exact absurd h (by simp)
    | ok p2 =>
      obtain ⟨l1, l2⟩ := p2
      simp only [hp] at h
      cases ha : get_attributes table gw jl l3 desc n1 with
      | error e => simp only [ha] at h; exact absurd h (by simp)
      | ok p3 =>
        obtain ⟨attrs, m2⟩ := p3
        simp only [ha] at h
        simp only [Except.ok.injEq, Prod.mk.injEq] at h
        obtain ⟨hr, hm⟩ := h
        have e1 : n1 = n + 1 := get_level_3_taxonomy_count _ _ _ _ _ _ h3
        have e2 : m2 = n1 + 1 := get_attributes_count _ _ _ _ _ _ _ _ ha
        subst hr hm e1 e2
        refine ⟨rfl, hp, ha⟩

theorem classify_categories_inner_spec (table : List TaxonomyRow)
    (gw : Gateway) (desc : Str) (n : Nat) (r : CategoriesResult) (n1 : Nat)
    (h : classify_categories_inner table gw desc n = .ok (r, n1)) :
    n1 = n + 1 ∧
    get_parent_categories table r.level_3_category =
      .ok (r.level_1_category, r.level_2_category) := by
  unfold classify_categories_inner at h
  cases h3 : get_level_3_taxonomy table gw desc n with
  | error e => rw [h3] at h; exact absurd h (by simp)
  | ok p1 =>
    obtain ⟨l3, m1⟩ := p1
    simp only [h3] at h
    cases hp : get_parent_categories table l3 with
    | error e => simp only [hp] at h; exact absurd h (by simp)
    | ok p2 =>
      obtain ⟨l1, l2⟩ := p2
      simp only [hp] at h
      simp only [Except.ok.injEq, Prod.mk.injEq] at h
      obtain ⟨hr, hm⟩ := h
      have e1 : m1 = n + 1 := get_level_3_taxonomy_count _ _ _ _ _ _ h3
      subst hr hm e1
      exact ⟨rfl, hp⟩

theorem classify_product_error_shape (table : List TaxonomyRow) (gw : Gateway)
    (jl : Str → Option PyVal) (desc : Str) (n : Nat) (e : Err)
    (h : classify_product table gw jl desc n = .error e) :
    ∃ m, e = .classificationError m := by
  unfold classify_product at h
  cases hi : classify_product_inner table gw jl desc n with
  | error e0 =>
    rw [hi] at h
    injection h with h'
    exact ⟨_, h'.symm⟩
  | ok y => rw [hi] at h; exact absurd h (by simp)

/-! Claim theorems. -/

/-- C6: `_find_closest_match` implements exactly the claimed precedence:
(1) the first option equal to the trimmed response case-insensitively;
(2) otherwise the first option (in list order) containing the response or
contained in it case-insensitively; (3) otherwise the first option of the
list, or the raw response verbatim when the list is empty; and for a
non-empty option list the result is always a member of the list. The
function is pure, so determinism (equal inputs give equal outputs) holds
by construction. -/
theorem C6_closest_match_precedence (response : Str) (valid_options : List Str) :
    (∀ o, valid_options.find?
        (fun o => lowerStr o == stripStr (lowerStr response)) = some o →
      find_closest_match response valid_options = o) ∧
    (valid_options.find?
        (fun o => lowerStr o == stripStr (lowerStr response)) = Option.none →
      ∀ o, valid_options.find? (fun o =>
          containsStr (stripStr (lowerStr response)) (lowerStr o) ||
          containsStr (lowerStr o) (stripStr (lowerStr response))) = some o →
        find_closest_match response valid_options = o) ∧
    (valid_options.find?
        (fun o => lowerStr o == stripStr (lowerStr response)) = Option.none →
      valid_options.find? (fun o =>
          containsStr (stripStr (lowerStr response)) (lowerStr o) ||
          containsStr (lowerStr o) (stripStr (lowerStr response))) = Option.none →
      find_closest_match response valid_options = valid_options.headD response) ∧
    (valid_options ≠ [] →
      find_closest_match response valid_options ∈ valid_options) := by
  refine ⟨?_, ?_, ?_, find_closest_match_mem response valid_options⟩
  · intro o h1
    simp only [find_closest_match, h1]
  · intro h1 o h2
    simp only [find_closest_match, h1, h2]
  · intro h1 h2
    simp only [find_closest_match, h1, h2]
    cases valid_options <;> rfl

/-- Concrete instance of C6: a response that differs from an option only
in case and surrounding whitespace resolves to that option. -/
theorem C6_closest_match_witness :
    find_closest_match " garden hose ".data
      ["Rubber Hose".data, "Garden Hose".data] = "Garden Hose".data :=
  (C6_closest_match_precedence " garden hose ".data
    ["Rubber Hose".data, "Garden Hose".data]).1 "Garden Hose".data (by decide)

/-- Taxonomy table whose only level-3 value is blank, so that the level-3
option list offered to the model is empty. -/
def tblC7 : List TaxonomyRow :=
  [⟨"Home".data, "Garden".data, "".data, "Material".data, "Rubber;Vinyl".data⟩]

/-- Gateway stub that always answers the fixed text "foo". -/
def gwC7 : Gateway := fun _ => .ok "foo".data

/-- Gateway stub whose calls always fail with the message "boom". -/
def gwFailC7 : Gateway := fun _ => .error "boom".data

/-- C7 counterexample: with an empty level-3 option list and a successful
gateway call, `get_level_3_taxonomy` does not fail — it returns the raw
stripped response verbatim — contradicting the claim that it fails exactly
when the option list is empty or the gateway fails. -/
theorem C7_counterexample :
    level3Options tblC7 = [] ∧
    gwC7 0 = .ok "foo".data ∧
    get_level_3_taxonomy tblC7 gwC7 "desc".data 0 = .ok ("foo".data, 1) :=
  ⟨rfl, rfl, rfl⟩

/-- C7 (amended): `get_level_3_taxonomy` fails exactly when the Model
Gateway call itself fails (with the gateway failure, not a
ClassificationError); for every gateway response it returns without
raising: a member of the option list when the list is non-empty, and the
raw stripped response verbatim when the list is empty. -/
theorem C7_level3_failure_condition (table : List TaxonomyRow) (gw : Gateway)
    (desc : Str) (n : Nat) :
    (∀ e, gw n = .error e →
      get_level_3_taxonomy table gw desc n =
        .error (.gatewayError ("API call failed: ".data ++ e))) ∧
    (∀ t, gw n = .ok t →
      ∃ c, get_level_3_taxonomy table gw desc n = .ok (c, n + 1) ∧
        (level3Options table ≠ [] → c ∈ level3Options table) ∧
        (level3Options table = [] → c = stripStr t)) := by
  constructor
  · intro e he
    simp only [get_level_3_taxonomy, make_api_call, he]
  · intro t ht
    by_cases hm : stripStr t ∈ level3Options table
    · refine ⟨stripStr t, ?_, fun _ => hm, fun _ => rfl⟩
      simp only [get_level_3_taxonomy, make_api_call, ht, if_pos hm]
    · refine ⟨find_closest_match (stripStr t) (level3Options table), ?_, ?_, ?_⟩
      · simp only [get_level_3_taxonomy, make_api_call, ht, if_neg hm]
      · intro hne
        exact find_closest_match_mem _ _ hne
      · intro h0
        rw [h0]
        rfl

/-- Concrete instance of the amended C7: a failing gateway call surfaces
as the wrapped gateway failure. -/
theorem C7_level3_failure_witness :
    get_level_3_taxonomy tblC7 gwFailC7 "desc".data 0 =
      .error (.gatewayError "API call failed: boom".data) :=
  (C7_level3_failure_condition tblC7 gwFailC7 "desc".data 0).1 "boom".data rfl

/-- C10: under the table invariant that rows sharing a level-3 value agree
on level 1 and level 2, `get_parent_categories` returns, for every level-3
value present in the table, the unique (level 1, level 2) pair shared by
all rows carrying that value — stated as: the result equals the pair of
any such row — and fails with the NotFoundError-kind `ValueError` for
every level-3 value absent from the table. -/
theorem C10_parent_categories (table : List TaxonomyRow)
    (hinv : ∀ r1 ∈ table, ∀ r2 ∈ table, r1.level3 = r2.level3 →
      r1.level1 = r2.level1 ∧ r1.level2 = r2.level2) (v : Str) :
    (∀ r ∈ table, r.level3 = v →
      get_parent_categories table v = .ok (r.level1, r.level2)) ∧
    (v ∉ table.map (fun r => r.level3) →
      get_parent_categories table v =
        .error (.notFoundError
          ("No matching row found for level 3 category: ".data ++ v))) := by
  constructor
  · intro r hr hrv
    unfold get_parent_categories
    cases hf : table.filter (fun row => row.level3 == v) with
    | nil =>
      exfalso
      exact absurd (by simp [hrv] : (fun row => row.level3 == v) r = true)
        (List.filter_eq_nil_iff.mp hf r hr)
    | cons r0 t =>
      have hr0 : r0 ∈ table.filter (fun row => row.level3 == v) := by
        rw [hf]; exact List.mem_cons_self _ _
      rcases List.mem_filter.mp hr0 with ⟨h0mem, h0eq⟩
      have h0v : r0.level3 = v := by simpa using h0eq
      have hagree := hinv r0 h0mem r hr (h0v.trans hrv.symm)
      simp only [hf, hagree.1, hagree.2]
  · intro hv
    unfold get_parent_categories
    cases hf : table.filter (fun row => row.level3 == v) with
    | nil => rfl
    | cons r0 t =>
      exfalso
      have hr0 : r0 ∈ table.filter (fun row => row.level3 == v) := by
        rw [hf]; exact List.mem_cons_self _ _
      rcases List.mem_filter.mp hr0 with ⟨h0mem, h0eq⟩
      have h0v : r0.level3 = v := by simpa using h0eq
      exact hv (h0v ▸ List.mem_map_of_mem _ h0mem)

/-- Taxonomy table with two rows sharing the level-3 value "Garden Hose"
(one per attribute), plus an unrelated category. -/
def tblC10 : List TaxonomyRow :=
  [⟨"Outdoor".data, "Watering".data, "Garden Hose".data, "Material".data,
      "Rubber;Vinyl".data⟩,
   ⟨"Outdoor".data, "Watering".data, "Garden Hose".data, "Length".data,
      "".data⟩,
   ⟨"Home".data, "Kitchen".data, "Blender".data, "Wattage".data, "".data⟩]

/-- Concrete instance of C10 on a table with two rows sharing one level-3
value: the lookup agrees with the second of the two duplicated rows, and
an absent value fails with the NotFoundError-kind `ValueError`. -/
theorem C10_parent_categories_witness :
    get_parent_categories tblC10 "Garden Hose".data =
      .ok ("Outdoor".data, "Watering".data) ∧
    get_parent_categories tblC10 "Sofa".data =
      .error (.notFoundError
        ("No matching row found for level 3 category: ".data ++ "Sofa".data)) :=
  ⟨(C10_parent_categories tblC10 (by decide) "Garden Hose".data).1
      ⟨"Outdoor".data, "Watering".data, "Garden Hose".data, "Length".data,
        "".data⟩ (by decide) rfl,
   (C10_parent_categories tblC10 (by decide) "Sofa".data).2 (by decide)⟩

/-- C3: a successful `classify_product` issues exactly 2 generation calls
(one in `get_level_3_taxonomy`, one in `get_attributes`) and a successful
`classify_product_categories_only` exactly 1, for every taxonomy table,
gateway, description and starting call count. -/
theorem C3_call_budget (table : List TaxonomyRow) (gw : Gateway)
    (jl : Str → Option PyVal) (desc : Str) (n : Nat) :
    (∀ r n2, classify_product table gw jl desc n = .ok (r, n2) →
      n2 = n + 2) ∧
    (∀ r n1, classify_product_categories_only table gw desc n = .ok (r, n1) →
      n1 = n + 1) := by
  constructor
  · intro r n2 h
    exact (classify_product_inner_spec table gw jl desc n r n2
      (classify_product_ok_inner table gw jl desc n (r, n2) h)).1
  · intro r n1 h
    exact (classify_categories_inner_spec table gw desc n r n1
      (classify_categories_ok_inner table gw desc n (r, n1) h)).1

/-- One-category taxonomy table used for the concrete successful runs. -/
def tblRun : List TaxonomyRow :=
  [⟨"Outdoor".data, "Watering".data, "Garden Hose".data, "Material".data,
      "Rubber;Vinyl".data⟩]

/-- Gateway stub that always answers the category name. -/
def gwRun : Gateway := fun _ => .ok "Garden Hose".data

/-- A `json.loads` stub on which every parse fails. -/
def jlFail : Str → Option PyVal := fun _ => Option.none

/-- The classification result of the concrete successful run. -/
def rRun : ClassificationResult :=
  { product_description := "50ft rubber hose".data
    level_1_category := "Outdoor".data
    level_2_category := "Watering".data
    level_3_category := "Garden Hose".data
    attributes := .dict [("Material".data, PyVal.str "N/A".data)] }

/-- Concrete instance of C3: the successful runs finish with call counters
2 and 1 respectively. -/
theorem C3_call_budget_witness :
    (2 : Nat) = 0 + 2 ∧ (1 : Nat) = 0 + 1 :=
  ⟨(C3_call_budget tblRun gwRun jlFail "50ft rubber hose".data 0).1 rRun 2 rfl,
   (C3_call_budget tblRun gwRun jlFail "50ft rubber hose".data 0).2
     { product_description := "50ft rubber hose".data
       level_1_category := "Outdoor".data
       level_2_category := "Watering".data
       level_3_category := "Garden Hose".data } 1 rfl⟩

/-- Table whose only level-3 value is blank, so the resolver returns the
raw response and the parent lookup then raises the NotFoundError-kind
`ValueError` inside `classify_product`. -/
def tblC9 : List TaxonomyRow :=
  [⟨"Home".data, "Garden".data, "".data, "Material".data, "Rubber".data⟩]

/-- Gateway stub answering the out-of-table text "foo". -/
def gwC9 : Gateway := fun _ => .ok "foo".data

/-- C9 counterexample: the child operation raises the NotFoundError-kind
`ValueError`, but `classify_product` does not propagate it unchanged — the
caller receives a ClassificationError wrapping its message, because the
`except Exception` clause catches every child exception. -/
theorem C9_counterexample :
    get_parent_categories tblC9 "foo".data =
      .error (.notFoundError
        "No matching row found for level 3 category: foo".data) ∧
    classify_product tblC9 gwC9 jlFail "desc".data 0 =
      .error (.classificationError
        "Classification failed: No matching row found for level 3 category: foo".data) :=
  ⟨rfl, rfl⟩

/-- C9 (amended): `classify_product` and
`classify_product_categories_only` wrap every exception raised by a child
operation — NotFoundError and the gateway failure included — as a
ClassificationError carrying the original exception's message, so the
caller always receives a ClassificationError. -/
theorem C9_error_wrapping (table : List TaxonomyRow) (gw : Gateway)
    (jl : Str → Option PyVal) (desc : Str) (n : Nat) :
    (∀ e, classify_product_inner table gw jl desc n = .error e →
      classify_product table gw jl desc n =
        .error (.classificationError
          ("Classification failed: ".data ++ errMsg e))) ∧
    (∀ e', classify_product table gw jl desc n = .error e' →
      ∃ m, e' = .classificationError m) ∧
    (∀ e, classify_categories_inner table gw desc n = .error e →
      classify_product_categories_only table gw desc n =
        .error (.classificationError
          ("Classification failed: ".data ++ errMsg e))) ∧
    (∀ e', classify_product_categories_only table gw desc n = .error e' →
      ∃ m, e' = .classificationError m) := by
  refine ⟨?_, ?_, ?_, ?_⟩
  · intro e he
    simp only [classify_product, he]
  · intro e' h
    exact classify_product_error_shape table gw jl desc n e' h
  · intro e he
    simp only [classify_product_categories_only, he]
  · intro e' h
    unfold classify_product_categories_only at h
    cases hi : classify_categories_inner table gw desc n with
    | error e0 =>
      rw [hi] at h
      injection h with h'
      exact ⟨_, h'.symm⟩
    | ok y => rw [hi] at h; exact absurd h (by simp)

/-- Concrete instance of the amended C9: the NotFoundError raised by the
parent lookup is wrapped with its message preserved. -/
theorem C9_error_wrapping_witness :
    classify_product tblC9 gwC9 jlFail "desc".data 0 =
      .error (.classificationError
        ("Classification failed: ".data ++
          errMsg (.notFoundError
            "No matching row found for level 3 category: foo".data))) :=
  (C9_error_wrapping tblC9 gwC9 jlFail "desc".data 0).1
    (.notFoundError "No matching row found for level 3 category: foo".data) rfl

/-- C1: for every non-empty taxonomy table, gateway behaviour, `json.loads`
behaviour and description, `classify_product` either returns a result
whose level-3 category is a value present in the table's level-3 column,
or fails with one of the four named error kinds (in fact always a
ClassificationError, since the orchestrator wraps every child failure) —
never with any other failure such as a TypeError. -/
theorem C1_totality (table : List TaxonomyRow) (gw : Gateway)
    (jl : Str → Option PyVal) (desc : Str) (hne : table ≠ []) :
    (∀ r n2, classify_product table gw jl desc 0 = .ok (r, n2) →
      r.level_3_category ∈ table.map (fun row => row.level3)) ∧
    (∀ e, classify_product table gw jl desc 0 = .error e →
      isNamedErr e = true) := by
  constructor
  · intro r n2 h
    have hspec := classify_product_inner_spec table gw jl desc 0 r n2
      (classify_product_ok_inner table gw jl desc 0 (r, n2) h)
    exact get_parent_categories_ok_mem table r.level_3_category _ hspec.2.1
  · intro e h
    rcases classify_product_error_shape table gw jl desc 0 e h with ⟨m, rfl⟩
    rfl

/-- Concrete instance of C1: the successful run's level-3 category is a
member of the table's level-3 column. -/
theorem C1_totality_witness :
    rRun.level_3_category ∈ tblRun.map (fun row => row.level3) :=
  (C1_totality tblRun gwRun jlFail "50ft rubber hose".data (by decide)).1
    rRun 2 rfl

/-- Is the computation of `get_attributes` successful (no raised
exception)? -/
def isOkE : Except Err (PyVal × Nat) → Bool
  | .ok _ => true
  | .error _ => false

/-- The keys of a Python dict value (empty for non-dict values). -/
def pyKeys : PyVal → List Str
  | .dict es => es.map Prod.fst
  | _ => []

/-- The value a successful `get_attributes` result associates to an
attribute name (`none` for a failed run or a non-dict result). -/
def getAttrValue (x : Except Err (PyVal × Nat)) (a : Str) : Option PyVal :=
  match x with
  | .ok (.dict es, _) => dictLookup es a
  | _ => Option.none

/-- C5: when the gateway call of the attribute step succeeds but the
returned text fails JSON parsing after code-fence stripping,
`get_attributes` does not raise: it returns the mapping sending every
attribute of the resolved category's AttributeSpec to the literal "N/A"
(the option-dictionary keys being exactly the AttributeSpec attribute
names of the category). -/
theorem C5_parse_failure_na (table : List TaxonomyRow) (gw : Gateway)
    (jl : Str → Option PyVal) (l3 desc t : Str) (n : Nat)
    (opts : List (Str × List Str))
    (hb : buildAttributeOptions table jl l3 = .ok opts)
    (hg : gw n = .ok t)
    (hj : jl (stripFences (stripStr t)) = Option.none) :
    get_attributes table gw jl l3 desc n =
      .ok (.dict (opts.map (fun e => (e.1, PyVal.str "N/A".data))), n + 1) ∧
    (∀ a, a ∈ opts.map Prod.fst ↔ isExpectedAttr table l3 a) := by
  constructor
  · simp only [get_attributes, hb, make_api_call, hg, hj]
  · exact buildAttributeOptions_keys table jl l3 opts hb

/-- Concrete instance of C5: a non-JSON attribute response yields the
all-"N/A" mapping without raising. -/
theorem C5_parse_failure_witness :
    get_attributes tblRun gwRun jlFail "Garden Hose".data "d".data 0 =
      .ok (.dict ([("Material".data, ["Rubber".data, "Vinyl".data])].map
        (fun e => (e.1, PyVal.str "N/A".data))), 0 + 1) :=
  (C5_parse_failure_na tblRun gwRun jlFail "Garden Hose".data "d".data
    "Garden Hose".data 0 [("Material".data, ["Rubber".data, "Vinyl".data])]
    rfl rfl rfl).1

/-- Gateway stub answering the JSON-array text for the attribute step. -/
def gwListC4 : Gateway := fun _ => .ok "[]".data

/-- A `json.loads` stub that parses "[]" to the empty Python list, exactly
as Python's `json.loads` does, and fails on everything else. -/
def jlListC4 : Str → Option PyVal :=
  fun s => if s == "[]".data then some (.list []) else Option.none

/-- C4 counterexample: the resolved category has a row and the gateway
call succeeds, yet `get_attributes` raises: the model output "[]" parses
as a JSON array, and the completeness loop's assignment
`selected_attributes[attribute] = 'N/A'` on a list raises a `TypeError`
(only `json.JSONDecodeError` is caught), instead of degrading to the
"N/A" defaults. -/
theorem C4_counterexample :
    tblRun.filter (fun r => r.level3 == "Garden Hose".data) ≠ [] ∧
    gwListC4 0 = .ok "[]".data ∧
    jlListC4 "[]".data = some (.list []) ∧
    get_attributes tblRun gwListC4 jlListC4 "Garden Hose".data "d".data 0 =
      .error (.typeError "list indices must be integers, not str".data) :=
  ⟨by decide, rfl, rfl, rfl⟩

/-- C4 (amended): given that the option building succeeded and the gateway
call succeeds, `get_attributes` does not raise whenever the returned text
fails JSON parsing (degrading to the "N/A" defaults) or parses to a JSON
object; only a text parsing to a non-object JSON value can raise (a
`TypeError`, as in the counterexample). -/
theorem C4_no_raise_on_parse_failure_or_object (table : List TaxonomyRow)
    (gw : Gateway) (jl : Str → Option PyVal) (l3 desc t : Str) (n : Nat)
    (opts : List (Str × List Str))
    (hb : buildAttributeOptions table jl l3 = .ok opts)
    (hg : gw n = .ok t)
    (hj : jl (stripFences (stripStr t)) = Option.none ∨
      ∃ es, jl (stripFences (stripStr t)) = some (.dict es)) :
    isOkE (get_attributes table gw jl l3 desc n) = true := by
  rcases hj with hj | ⟨es, hj⟩
  · simp only [get_attributes, hb, make_api_call, hg, hj, isOkE]
  · obtain ⟨es', h1, _, _, _⟩ := fillLoop_dict (opts.map Prod.fst) es
    simp only [get_attributes, hb, make_api_call, hg, hj, h1, isOkE]

/-- Concrete instance of the amended C4: an unparseable attribute response
does not raise. -/
theorem C4_no_raise_witness :
    isOkE (get_attributes tblRun gwRun jlFail "Garden Hose".data "d".data 0) =
      true :=
  C4_no_raise_on_parse_failure_or_object tblRun gwRun jlFail
    "Garden Hose".data "d".data "Garden Hose".data 0
    [("Material".data, ["Rubber".data, "Vinyl".data])] rfl rfl (Or.inl rfl)

/-- The attribute-step response text of the C2 counterexample: a JSON
object with the expected key Material plus the extra key Extra. -/
def c2text : Str := "\x7b\"Material\": \"Rubber\", \"Extra\": \"x\"\x7d".data

/-- Gateway stub answering the category name on the first call and the
extra-key JSON object on the second. -/
def gwC2 : Gateway :=
  fun n => if n == 0 then .ok "Garden Hose".data else .ok c2text

/-- A `json.loads` stub that parses the C2 response text exactly as
Python's `json.loads` does, and fails on everything else. -/
def jlC2 : Str → Option PyVal :=
  fun s =>
    if s == c2text then
      some (.dict [("Material".data, .str "Rubber".data),
        ("Extra".data, .str "x".data)])
    else Option.none

/-- The classification result of the C2 counterexample run. -/
def rC2 : ClassificationResult :=
  { product_description := "d".data
    level_1_category := "Outdoor".data
    level_2_category := "Watering".data
    level_3_category := "Garden Hose".data
    attributes := .dict [("Material".data, .str "Rubber".data),
      ("Extra".data, .str "x".data)] }

/-- C2 counterexample: a gateway response carrying an extra key yields a
ClassificationResult whose attribute keys strictly contain the
AttributeSpec attribute names — the key "Extra" is passed through — so the
claimed exact key-set equality fails. -/
theorem C2_counterexample :
    classify_product tblRun gwC2 jlC2 "d".data 0 = .ok (rC2, 2) ∧
    "Extra".data ∈ pyKeys rC2.attributes ∧
    ¬ isExpectedAttr tblRun "Garden Hose".data "Extra".data :=
  ⟨rfl, by decide, by decide⟩

/-- C2 (amended): for every ClassificationResult whose attributes value is
a mapping, the keys are a superset of the AttributeSpec attribute names of
the resolved category — every expected attribute is present — but extra
keys returned by the model pass through, so exact equality can fail. -/
theorem C2_attribute_keys_superset (table : List TaxonomyRow) (gw : Gateway)
    (jl : Str → Option PyVal) (desc : Str) (n : Nat) :
    ∀ r n2 es, classify_product table gw jl desc n = .ok (r, n2) →
      r.attributes = .dict es →
      ∀ a, isExpectedAttr table r.level_3_category a →
        a ∈ es.map Prod.fst := by
  intro r n2 es h hdict a ha
  have hspec := classify_product_inner_spec table gw jl desc n r n2
    (classify_product_ok_inner table gw jl desc n (r, n2) h)
  have hattr := hspec.2.2
  unfold get_attributes at hattr
  cases hb : buildAttributeOptions table jl r.level_3_category with
  | error e => rw [hb] at hattr; exact absurd hattr (by simp)
  | ok opts =>
    have hkeys := buildAttributeOptions_keys table jl r.level_3_category opts hb
    simp only [hb, make_api_call] at hattr
    cases hg : gw (n + 1) with
    | error e => rw [hg] at hattr; exact absurd hattr (by simp)
    | ok t =>
      simp only [hg] at hattr
      cases hj : jl (stripFences (stripStr t)) with
      | none =>
        simp only [hj] at hattr
        have hra : r.attributes =
            .dict (opts.map (fun e => (e.1, PyVal.str "N/A".data))) := by
          simp only [Except.ok.injEq, Prod.mk.injEq] at hattr
          exact hattr.1.symm
        rw [hdict] at hra
        injection hra with hes
        rw [hes]
        simp only [List.map_map]
        exact (hkeys a).mpr ha
      | some sel =>
        simp only [hj] at hattr
        cases hf : fillLoop (opts.map Prod.fst) sel with
        | error e => rw [hf] at hattr; exact absurd hattr (by simp)
        | ok sel' =>
          simp only [hf, Except.ok.injEq, Prod.mk.injEq] at hattr
          have hsel : sel' = .dict es := hattr.1 ▸ hdict
          rw [hsel] at hf
          exact fillLoop_ok_dict (opts.map Prod.fst) sel es hf a
            ((hkeys a).mpr ha)

/-- Concrete instance of the amended C2: the expected attribute Material
is a key of the returned mapping of the extra-key run. -/
theorem C2_attribute_keys_witness :
    "Material".data ∈
      ([("Material".data, PyVal.str "Rubber".data),
        ("Extra".data, PyVal.str "x".data)].map Prod.fst) :=
  C2_attribute_keys_superset tblRun gwC2 jlC2 "d".data 0 rC2 2
    [("Material".data, .str "Rubber".data), ("Extra".data, .str "x".data)]
    rfl rfl "Material".data (by decide)

/-- The attribute-step response text of the C8 counterexample: a JSON
object giving the closed attribute Material the out-of-set value
Plastic. -/
def c8text : Str := "\x7b\"Material\": \"Plastic\"\x7d".data

/-- Gateway stub answering the C8 response text. -/
def gwC8 : Gateway := fun _ => .ok c8text

/-- A `json.loads` stub that parses the C8 response text exactly as
Python's `json.loads` does, and fails on everything else. -/
def jlC8 : Str → Option PyVal :=
  fun s =>
    if s == c8text then
      some (.dict [("Material".data, .str "Plastic".data)])
    else Option.none

/-- C8 counterexample: the closed attribute Material (valid values Rubber,
Vinyl) receives the value Plastic, which is neither a member of the
enumerated valid-value set nor the "N/A" sentinel — `get_attributes`
performs no membership validation of the model's values. -/
theorem C8_counterexample :
    parseValidValues jlC8 "Rubber;Vinyl".data =
      .ok ["Rubber".data, "Vinyl".data] ∧
    get_attributes tblRun gwC8 jlC8 "Garden Hose".data "d".data 0 =
      .ok (.dict [("Material".data, PyVal.str "Plastic".data)], 1) ∧
    "Plastic".data ∉ ["Rubber".data, "Vinyl".data] ∧
    "Plastic".data ≠ "N/A".data :=
  ⟨rfl, rfl, by decide, by decide⟩

/-- C8 (amended): `get_attributes` passes the values of the parsed JSON
object through unvalidated — any attribute present in the model's object
keeps exactly the value the model supplied, whether or not it belongs to
the attribute's enumerated valid-value set; "N/A" is substituted only for
missing attributes or unparseable output. -/
theorem C8_values_pass_through (table : List TaxonomyRow) (gw : Gateway)
    (jl : Str → Option PyVal) (l3 desc t : Str) (n : Nat)
    (opts : List (Str × List Str)) (es : List (Str × PyVal)) (a : Str)
    (v : PyVal)
    (hb : buildAttributeOptions table jl l3 = .ok opts)
    (hg : gw n = .ok t)
    (hj : jl (stripFences (stripStr t)) = some (.dict es))
    (ha : dictLookup es a = some v) :
    getAttrValue (get_attributes table gw jl l3 desc n) a = some v := by
  obtain ⟨es', h1, _, _, h4⟩ := fillLoop_dict (opts.map Prod.fst) es
  simp only [get_attributes, hb, make_api_call, hg, hj, h1, getAttrValue]
  exact h4 a v ha

/-- Concrete instance of the amended C8: the out-of-set value Plastic is
returned for Material unchanged. -/
theorem C8_values_pass_through_witness :
    getAttrValue
      (get_attributes tblRun gwC8 jlC8 "Garden Hose".data "d".data 0)
      "Material".data = some (.str "Plastic".data) :=
  C8_values_pass_through tblRun gwC8 jlC8 "Garden Hose".data "d".data c8text
    0 [("Material".data, ["Rubber".data, "Vinyl".data])]
    [("Material".data, .str "Plastic".data)] "Material".data
    (.str "Plastic".data) rfl rfl rfl rfl
